import Mathlib

/-!
Shallow embedding of the version-gated dashboard generation / reconciliation
engine of `proxy-dashboards/proxy_dashboard.py` and of the template import
planner of `template_syncer/template_syncer.py`, together with theorems
checking the specification's claims against it.
-/

/-- A semantic version (major.minor.patch), as compared by the
`semantic_version.Version` class used in both scripts (lexicographic on the
numeric components; no prerelease tags occur in this code base). -/
structure Version where
  major : Nat
  minor : Nat
  patch : Nat
deriving DecidableEq, Repr

/-- Lexicographic strict order on versions, the meaning of `<` on
`semantic_version.Version` values. -/
def Version.lt (a b : Version) : Bool :=
  decide (a.major < b.major) ||
    (decide (a.major = b.major) &&
      (decide (a.minor < b.minor) ||
        (decide (a.minor = b.minor) && decide (a.patch < b.patch))))

/-- `a >= b` on versions, as used in `zapi.version >= VERSION_SUPPORTING_PAGES`
and `zapi.version >= semantic_version.Version('5.4.0')`. -/
def Version.ge (a b : Version) : Bool :=
  !(Version.lt a b)

/-- `VERSION_SUPPORTING_PAGES = Version('5.4.0')` (proxy_dashboard.py line 18). -/
def VERSION_SUPPORTING_PAGES : Version := ⟨5, 4, 0⟩

/-- `VERSION_SUPPORTING_TOKENS = Version('5.4.0')` (proxy_dashboard.py line 17). -/
def VERSION_SUPPORTING_TOKENS : Version := ⟨5, 4, 0⟩

/-! ## template_syncer.py -/

/-- One entry of the `rules` dict in `upload_template`: every section sets
`createMissing`; all but `templateLinkage` also set `updateExisting`. -/
structure ImportRule where
  createMissing : Bool
  updateExisting : Option Bool
deriving DecidableEq, Repr

/-- The nine sections unconditionally present in the `rules` dict of
`upload_template` (template_syncer.py lines 21-57), in source order. -/
def base_rules : List (String × ImportRule) :=
  [ ("discoveryRules", ⟨true, some true⟩),
    ("graphs", ⟨true, some true⟩),
    ("groups", ⟨true, some true⟩),
    ("httptests", ⟨true, some true⟩),
    ("items", ⟨true, some true⟩),
    ("templateLinkage", ⟨true, none⟩),
    ("templates", ⟨true, some true⟩),
    ("templateDashboards", ⟨true, some true⟩),
    ("triggers", ⟨true, some true⟩) ]

/-- The import rule set built by `upload_template` for a given server version:
the base sections, plus a `valueMaps` section (both flags true) when
`zapi.version >= Version('5.4.0')` (template_syncer.py lines 58-62). -/
def import_rules (version : Version) : List (String × ImportRule) :=
  if Version.ge version ⟨5, 4, 0⟩ then
    base_rules ++ [("valueMaps", ⟨true, some true⟩)]
  else
    base_rules

/-- Python's `str.lower()`, on the reference's character sequence (the
references in this repo are ASCII, where `Char.toLower` agrees with it). -/
def lower (url : String) : List Char :=
  url.data.map Char.toLower

/-- Python's `str.endswith(suffix)` on the lowered character sequence. -/
def endswith (s : List Char) (suffix : String) : Bool :=
  List.isSuffixOf suffix.data s

/-- `infer_type` (template_syncer.py lines 73-82): lowercase the reference,
then suffix-match `yaml`/`yml` to yaml, `xml` to xml, `json` also to xml,
and raise `ValueError` otherwise. -/
def infer_type (url : String) : Except String String :=
  let lower_url := lower url
  if endswith lower_url "yaml" || endswith lower_url "yml" then
    Except.ok "yaml"
  else if endswith lower_url "xml" then
    Except.ok "xml"
  else if endswith lower_url "json" then
    Except.ok "xml"
  else
    Except.error "Could not infer template format from url"

/-- What the loop of template_syncer's `main` (lines 98-105) does with one
template reference: either an import is attempted with the inferred format, or
the `ValueError` from `infer_type` is caught and the template is skipped. -/
inductive SyncOutcome where
  | imported (format : String)
  | skipped
deriving DecidableEq, Repr

/-- The per-template loop of template_syncer's `main`: each reference is
handled independently; a `ValueError` from `infer_type` skips only that
template. -/
def sync_templates (templates : List String) : List SyncOutcome :=
  templates.map fun template =>
    match infer_type template with
    | Except.ok t_type => SyncOutcome.imported t_type
    | Except.error _ => SyncOutcome.skipped

/-! ## proxy_dashboard.py: data model -/

/-- A proxy host as returned by `zapi.hostgroup.get(..., selectHosts=['name', 'hostid'])`:
a display name and a stable host identifier. -/
structure Proxy where
  name : String
  hostid : String
deriving DecidableEq, Repr

/-- One host group as returned by the API's `hostgroup.get` filter query. -/
structure HostGroup where
  name : String
  hosts : List Proxy
deriving DecidableEq, Repr

/-- One entry of a widget's `fields` list: a typed (type, name, value) triple,
all transmitted as strings. -/
structure WidgetField where
  type : String
  name : String
  value : String
deriving DecidableEq, Repr

/-- One widget dict of a dashboard page. -/
structure Widget where
  type : String
  name : String
  x : String
  y : String
  width : String
  height : String
  view_mode : String
  fields : List WidgetField
deriving DecidableEq, Repr

/-- One dashboard page dict as built by `generate_dashboard_page`. -/
structure DashboardPage where
  name : String
  display_period : String
  widgets : List Widget
deriving DecidableEq, Repr

/-- A dashboard document dict. `generate_dashboard` creates it with the five
scalar attributes and an empty `pages` list; `main` may later replace `pages`
or delete it and set a top-level `widgets` list instead, so both keys are
optional here (a missing key is `none`). -/
structure Dashboard where
  name : String
  userid : String
  «private» : String
  display_period : String
  auto_start : String
  pages : Option (List DashboardPage)
  widgets : Option (List Widget)
deriving DecidableEq, Repr

/-- `CretaionMode` (proxy_dashboard.py lines 21-23). -/
inductive CretaionMode where
  | PAGED
  | SINGLE
deriving DecidableEq, Repr

/-- `select_creation_mode` (proxy_dashboard.py lines 51-55): `paged` requires
`zabbix_version >= VERSION_SUPPORTING_PAGES`, else a `RuntimeError` is raised. -/
def select_creation_mode (mode : CretaionMode) (zabbix_version : Version) :
    Except String CretaionMode :=
  if mode = CretaionMode.PAGED && Version.lt zabbix_version VERSION_SUPPORTING_PAGES then
    Except.error "This version doesn't support paged dashboards!"
  else
    Except.ok mode

/-- `get_proxies` (proxy_dashboard.py lines 157-163): `groups` is the list the
API returns for the name filter; `[0]` on an empty result raises `IndexError`,
caught and turned into `None`; otherwise the group's host list is returned. -/
def get_proxies (groups : List HostGroup) : Option (List Proxy) :=
  match groups with
  | [] => none
  | g :: _ => some g.hosts

/-- `generate_dashboard` (proxy_dashboard.py lines 166-174): the document
shell, with an empty `pages` list and no top-level `widgets` key. -/
def generate_dashboard (dashboard_name : String) (owner_id : String) : Dashboard :=
  { name := dashboard_name,
    userid := owner_id,
    «private» := "1",
    display_period := "30",
    auto_start := "1",
    pages := some [],
    widgets := none }

/-- `generate_dashboard_page` (proxy_dashboard.py lines 177-320): the fixed
catalog of six widgets per proxy, with the proxy's name bound into the
wildcarded metric patterns and its id into the problem-list filter. -/
def generate_dashboard_page (proxy : Proxy) : DashboardPage :=
  let proxy_name := proxy.name
  let proxy_id := proxy.hostid
  { name := proxy_name,
    display_period := "0",
    widgets := [
      { type := "svggraph",
        name := "Queue size",
        x := "16", y := "5", width := "8", height := "5", view_mode := "0",
        fields := [
          ⟨"1", "ds.hosts.0.0", proxy_name⟩,
          ⟨"1", "ds.items.0.0", "Zabbix queue"⟩,
          ⟨"1", "ds.color.0", "B0AF07"⟩,
          ⟨"1", "ds.hosts.1.0", proxy_name⟩,
          ⟨"1", "ds.items.1.0", "Zabbix queue over 10 minutes"⟩,
          ⟨"1", "ds.color.1", "E53935"⟩,
          ⟨"1", "ds.hosts.2.0", proxy_name⟩,
          ⟨"1", "ds.items.2.0", "Zabbix preprocessing queue"⟩,
          ⟨"1", "ds.color.2", "0275B8"⟩,
          ⟨"1", "lefty_min", "0"⟩,
          ⟨"1", "problemhosts.0", proxy_name⟩,
          ⟨"0", "ds.width.0", "2"⟩,
          ⟨"0", "ds.transparency.0", "0"⟩,
          ⟨"0", "ds.fill.0", "0"⟩,
          ⟨"0", "ds.width.1", "2"⟩,
          ⟨"0", "ds.transparency.1", "0"⟩,
          ⟨"0", "ds.fill.1", "0"⟩,
          ⟨"0", "ds.width.2", "2"⟩,
          ⟨"0", "ds.transparency.2", "0"⟩,
          ⟨"0", "ds.fill.2", "0"⟩,
          ⟨"0", "righty", "0"⟩,
          ⟨"0", "legend", "0"⟩,
          ⟨"0", "show_problems", "1"⟩,
          ⟨"0", "graph_item_problems", "0"⟩ ] },
      { type := "svggraph",
        name := "Values processed per second",
        x := "8", y := "0", width := "8", height := "5", view_mode := "0",
        fields := [
          ⟨"1", "ds.hosts.0.0", proxy_name⟩,
          ⟨"1", "ds.items.0.0", "Number of processed *values per second"⟩,
          ⟨"1", "ds.color.0", "00BFFF"⟩,
          ⟨"1", "lefty_min", "0"⟩,
          ⟨"1", "problemhosts.0", proxy_name⟩,
          ⟨"0", "ds.transparency.0", "0"⟩,
          ⟨"0", "righty", "0"⟩,
          ⟨"0", "legend", "0"⟩,
          ⟨"0", "show_problems", "1"⟩,
          ⟨"0", "graph_item_problems", "0"⟩ ] },
      { type := "svggraph",
        name := "Utilization of data collectors",
        x := "0", y := "5", width := "8", height := "5", view_mode := "0",
        fields := [
          ⟨"1", "ds.hosts.0.0", proxy_name⟩,
          ⟨"1", "ds.items.0.0", "Utilization of * data collector *"⟩,
          ⟨"1", "ds.color.0", "E57373"⟩,
          ⟨"1", "lefty_min", "0"⟩,
          ⟨"1", "lefty_max", "100"⟩,
          ⟨"1", "problemhosts.0", proxy_name⟩,
          ⟨"0", "ds.transparency.0", "0"⟩,
          ⟨"0", "righty", "0"⟩,
          ⟨"0", "legend", "0"⟩,
          ⟨"0", "show_problems", "1"⟩,
          ⟨"0", "graph_item_problems", "0"⟩ ] },
      { type := "svggraph",
        name := "Utilization of internal processes",
        x := "8", y := "5", width := "8", height := "5", view_mode := "0",
        fields := [
          ⟨"1", "ds.hosts.0.0", proxy_name⟩,
          ⟨"1", "ds.items.0.0", "Utilization of * internal *"⟩,
          ⟨"1", "ds.color.0", "E57373"⟩,
          ⟨"1", "lefty_min", "0"⟩,
          ⟨"1", "lefty_max", "100"⟩,
          ⟨"1", "problemhosts.0", proxy_name⟩,
          ⟨"0", "ds.transparency.0", "0"⟩,
          ⟨"0", "righty", "0"⟩,
          ⟨"0", "legend", "0"⟩,
          ⟨"0", "show_problems", "1"⟩,
          ⟨"0", "graph_item_problems", "0"⟩ ] },
      { type := "svggraph",
        name := "Cache usage",
        x := "16", y := "0", width := "8", height := "5", view_mode := "0",
        fields := [
          ⟨"1", "ds.hosts.0.0", proxy_name⟩,
          ⟨"1", "ds.items.0.0", "Zabbix*cache*% used"⟩,
          ⟨"1", "ds.color.0", "4DB6AC"⟩,
          ⟨"1", "lefty_min", "0"⟩,
          ⟨"1", "lefty_max", "100"⟩,
          ⟨"1", "problemhosts.0", proxy_name⟩,
          ⟨"0", "ds.width.0", "2"⟩,
          ⟨"0", "ds.transparency.0", "0"⟩,
          ⟨"0", "ds.fill.0", "0"⟩,
          ⟨"0", "righty", "0"⟩,
          ⟨"0", "legend", "0"⟩,
          ⟨"0", "show_problems", "1"⟩,
          ⟨"0", "graph_item_problems", "0"⟩ ] },
      { type := "problems",
        name := "",
        x := "0", y := "0", width := "8", height := "5", view_mode := "0",
        fields := [
          ⟨"3", "hostids", proxy_id⟩,
          ⟨"0", "show_opdata", "1"⟩ ] } ] }

/-! ## proxy_dashboard.py: document generation (main, lines 117-132) -/

/-- The SINGLE-mode per-proxy document (main, lines 124-132): a fresh shell
named after the proxy; at or above `VERSION_SUPPORTING_PAGES` the page is
appended to the shell's (empty) `pages` list, otherwise the page's widget
list is hoisted to top-level `widgets` and the `pages` key is deleted. -/
def single_dashboard (version : Version) (owner : String) (proxy : Proxy) : Dashboard :=
  let dashboard := generate_dashboard ("Zabbix proxy health: " ++ proxy.name) owner
  let dashboard_page := generate_dashboard_page proxy
  if Version.ge version VERSION_SUPPORTING_PAGES then
    { dashboard with pages := some (dashboard.pages.getD [] ++ [dashboard_page]) }
  else
    { dashboard with widgets := some dashboard_page.widgets, pages := none }

/-- The document-generation phase of `main` (lines 117-132): PAGED produces a
single document holding one page per proxy; SINGLE produces one document per
proxy via `single_dashboard`. -/
def generate_dashboards (mode : CretaionMode) (version : Version) (owner : String)
    (proxies : List Proxy) : List Dashboard :=
  match mode with
  | CretaionMode.PAGED =>
      let dashboard := generate_dashboard "Zabbix proxies health" owner
      [{ dashboard with pages := some (proxies.map generate_dashboard_page) }]
  | CretaionMode.SINGLE =>
      proxies.map (single_dashboard version owner)

/-! ## proxy_dashboard.py: reconciliation loop (main, lines 134-151) -/

/-- The `ZabbixAPIException` raised by a remote call; the loop logs
`e.error['data']` when skipping. -/
structure ApiErr where
  data : String
deriving DecidableEq, Repr

/-- A value passed as a keyword argument of `zapi.dashboard.update`. -/
inductive FieldValue where
  | str (s : String)
  | pagesVal (pages : List DashboardPage)
  | widgetsVal (widgets : List Widget)
deriving DecidableEq, Repr

/-- A remote call issued by the reconciliation loop. -/
inductive RemoteCall where
  | createCall (dashboard : Dashboard)
  | getCall (name : String)
  | updateCall (fields : List (String × FieldValue))
deriving DecidableEq, Repr

/-- The remote server's responses, as the loop observes them: the result of
`dashboard.create` keyed by document name (`none` is success, `some e` a
`ZabbixAPIException`), the id list returned by the name-filtered
`dashboard.get`, and the result of `dashboard.update` keyed by its argument
list. -/
structure Remote where
  createError : String → Option ApiErr
  getByName : String → List String
  updateError : List (String × FieldValue) → Option ApiErr

/-- The committed outcome of one document, as the log stream records it:
`Created` (line 138), `Updated` (line 149), or skipped with the error's data
logged (line 151, `force=false`). -/
inductive Outcome where
  | Created
  | Updated
  | Skipped (data : String)
deriving DecidableEq, Repr

/-- An exception that escapes the per-document handler and aborts the loop:
the `IndexError` from `existing_dashboard[0]` when the name lookup finds
nothing, the `KeyError` from `dashboard['pages']`/`dashboard['widgets']` when
the document lacks the accessed key, or a `ZabbixAPIException` raised by
`dashboard.get`/`dashboard.update` inside the except-handler. -/
inductive LoopError where
  | indexError
  | keyError
  | apiError (data : String)
deriving DecidableEq, Repr

/-- The keyword arguments of the forced `dashboard.update` call (lines
145-148): the dashboard id plus `pages=dashboard['pages']` at or above
`VERSION_SUPPORTING_PAGES`, else `widgets=dashboard['widgets']`; `none` when
the accessed key is missing from the document (a `KeyError`). -/
def update_call_fields (version : Version) (dashboard : Dashboard) (d_id : String) :
    Option (List (String × FieldValue)) :=
  if Version.ge version VERSION_SUPPORTING_PAGES then
    dashboard.pages.map fun pages =>
      [("dashboardid", FieldValue.str d_id), ("pages", FieldValue.pagesVal pages)]
  else
    dashboard.widgets.map fun widgets =>
      [("dashboardid", FieldValue.str d_id), ("widgets", FieldValue.widgetsVal widgets)]

/-- One iteration of the reconciliation loop (lines 135-151) on one document:
the committed outcome or the escaping exception, together with the remote
calls issued. -/
def process_dashboard (remote : Remote) (force : Bool) (version : Version)
    (dashboard : Dashboard) : Except LoopError Outcome × List RemoteCall :=
  match remote.createError dashboard.name with
  | none => (Except.ok Outcome.Created, [RemoteCall.createCall dashboard])
  | some e =>
    if force then
      match remote.getByName dashboard.name with
      | [] =>
          (Except.error LoopError.indexError,
           [RemoteCall.createCall dashboard, RemoteCall.getCall dashboard.name])
      | d_id :: _ =>
          match update_call_fields version dashboard d_id with
          | none =>
              (Except.error LoopError.keyError,
               [RemoteCall.createCall dashboard, RemoteCall.getCall dashboard.name])
          | some fields =>
              match remote.updateError fields with
              | none =>
                  (Except.ok Outcome.Updated,
                   [RemoteCall.createCall dashboard, RemoteCall.getCall dashboard.name,
                    RemoteCall.updateCall fields])
              | some e2 =>
                  (Except.error (LoopError.apiError e2.data),
                   [RemoteCall.createCall dashboard, RemoteCall.getCall dashboard.name,
                    RemoteCall.updateCall fields])
    else
      (Except.ok (Outcome.Skipped e.data), [RemoteCall.createCall dashboard])

/-- What a run of the reconciliation loop leaves behind: the outcomes
committed in batch order, the exception that aborted the loop if one escaped,
and the remote calls issued. -/
structure ReconcileResult where
  outcomes : List Outcome
  aborted : Option LoopError
  calls : List RemoteCall
deriving DecidableEq, Repr

/-- The reconciliation loop (lines 134-151): documents are processed strictly
in batch order; an escaping exception stops the loop, leaving the earlier
documents' outcomes committed and the remaining documents unattempted. -/
def reconcile (dashboards : List Dashboard) (force : Bool) (version : Version)
    (remote : Remote) : ReconcileResult :=
  match dashboards with
  | [] => ⟨[], none, []⟩
  | dashboard :: rest =>
    match process_dashboard remote force version dashboard with
    | (Except.ok outcome, calls) =>
        let r := reconcile rest force version remote
        ⟨outcome :: r.outcomes, r.aborted, calls ++ r.calls⟩
    | (Except.error e, calls) => ⟨[], some e, calls⟩

/-- The overall result of `main` after argument parsing and login: exit 1 on
a version/capability `RuntimeError` (lines 104-109), exit 2 when the host
group does not exist (lines 111-113), otherwise the reconciliation result
together with whether the empty-group warning was logged (line 115). -/
inductive RunResult where
  | exit1 (msg : String)
  | exit2
  | finished (warned_empty : Bool) (result : ReconcileResult)
deriving Repr

/-- The run pipeline of `main` (lines 104-151): select the creation mode
(fatal on failure), fetch the group's proxies (fatal when the group is
absent, a warning when it is empty), generate the documents, reconcile. -/
def run (mode : CretaionMode) (version : Version) (groups : List HostGroup)
    (owner : String) (force : Bool) (remote : Remote) : RunResult :=
  match select_creation_mode mode version with
  | Except.error e => RunResult.exit1 e
  | Except.ok creation_mode =>
    match get_proxies groups with
    | none => RunResult.exit2
    | some proxies =>
      let dashboards := generate_dashboards creation_mode version owner proxies
      RunResult.finished proxies.isEmpty (reconcile dashboards force version remote)

/-! ## Concrete remotes used to instantiate theorems on closed inputs -/

/-- A remote on which every create succeeds, name lookups find nothing, and
updates succeed. -/
def trivialRemote : Remote :=
  ⟨fun _ => none, fun _ => [], fun _ => none⟩

/-- A remote on which creating the document named "B" reports an error and
every other create succeeds; lookups find nothing. -/
def conflictOnB : Remote :=
  ⟨fun name => if name = "B" then some ⟨"Dashboard B already exists."⟩ else none,
   fun _ => [], fun _ => none⟩

/-- A remote on which creating the document named "A" fails with an internal
(non-conflict) error and the name lookup for "A" finds no existing document. -/
def internalErrorOnA : Remote :=
  ⟨fun name => if name = "A" then some ⟨"Internal error"⟩ else none,
   fun _ => [], fun _ => none⟩

/-- A remote on which creating "A" reports a name conflict, the lookup for
"A" finds the existing id "42", and updates succeed. -/
def conflictOnAFound : Remote :=
  ⟨fun name => if name = "A" then some ⟨"Dashboard A already exists."⟩ else none,
   fun name => if name = "A" then ["42"] else [], fun _ => none⟩

/-! ## Helper lemmas -/

/-- Unfolding of the lexicographic version order. -/
theorem Version_lt_iff (a b : Version) :
    Version.lt a b = true ↔
      (a.major < b.major ∨ (a.major = b.major ∧
        (a.minor < b.minor ∨ (a.minor = b.minor ∧ a.patch < b.patch)))) := by
  unfold Version.lt
  simp [Bool.or_eq_true, Bool.and_eq_true, decide_eq_true_eq]

/-- `a >= b` is the negation of `a < b`. -/
theorem Version_ge_eq_not_lt (a b : Version) :
    Version.ge a b = !(Version.lt a b) := rfl

/-- C8: the import plan at version 5.4.0 is exactly the plan at 5.3.9 plus a
`valueMaps` section with both `createMissing` and `updateExisting` true; the
plan at 5.3.9 has no `valueMaps` section; and for every version the plan is
either the base section list or the base list with only `valueMaps` appended,
so enabling the value-maps capability never removes or alters a section. -/
theorem C8_import_plan_valuemaps_gate :
    import_rules ⟨5, 4, 0⟩ = import_rules ⟨5, 3, 9⟩ ++ [("valueMaps", ⟨true, some true⟩)] ∧
    (import_rules ⟨5, 4, 0⟩).lookup "valueMaps" = some ⟨true, some true⟩ ∧
    (import_rules ⟨5, 3, 9⟩).lookup "valueMaps" = none ∧
    ∀ v : Version, import_rules v = base_rules ∨
      import_rules v = base_rules ++ [("valueMaps", ⟨true, some true⟩)] := by
  refine ⟨rfl, rfl, rfl, fun v => ?_⟩
  cases h : Version.ge v ⟨5, 4, 0⟩ <;> simp [import_rules, h]

/-- C2 counterexample: the claim says every suffix other than `.yaml`/`.yml`/
`.xml` fails with UnrecognizedFormat, but `infer_type` maps a `.json` suffix
to `xml` instead of failing. -/
theorem C2_counterexample :
    infer_type "baz.json" = Except.ok "xml" ∧
    endswith (lower "baz.json") ".yaml" = false ∧
    endswith (lower "baz.json") ".yml" = false ∧
    endswith (lower "baz.json") ".xml" = false := by
  refine ⟨by rfl, by decide, by decide, by decide⟩

/-- C2 amended: format inference lowercases the reference and suffix-matches
without requiring a dot: it returns `yaml` when the lowercased reference ends
in `yaml` or `yml`, returns `xml` when it ends in `xml` and also when it ends
in `json`, and fails (UnrecognizedFormat) exactly when none of these suffixes
match; the failure skips only that one template — the batch loop yields one
outcome per template, and `"foo.YML"`/`"bar.XML"`/`"baz.txt"` give
yaml-import, xml-import, skip. -/
theorem C2_amended_infer_type (url : String) (templates : List String) :
    (infer_type url = Except.ok "yaml" ↔
      (endswith (lower url) "yaml" || endswith (lower url) "yml") = true) ∧
    (infer_type url = Except.ok "xml" ↔
      ((endswith (lower url) "yaml" || endswith (lower url) "yml") = false ∧
       (endswith (lower url) "xml" || endswith (lower url) "json") = true)) ∧
    ((infer_type url).isOk = false ↔
      ((endswith (lower url) "yaml" || endswith (lower url) "yml") = false ∧
       (endswith (lower url) "xml" || endswith (lower url) "json") = false)) ∧
    (sync_templates templates).length = templates.length ∧
    sync_templates ["foo.YML", "bar.XML", "baz.txt"] =
      [SyncOutcome.imported "yaml", SyncOutcome.imported "xml", SyncOutcome.skipped] := by
  refine ⟨?_, ?_, ?_, ?_, by decide⟩
  · cases h1 : endswith (lower url) "yaml" <;> cases h2 : endswith (lower url) "yml" <;>
      cases h3 : endswith (lower url) "xml" <;> cases h4 : endswith (lower url) "json" <;>
      simp [infer_type, h1, h2, h3, h4]
  · cases h1 : endswith (lower url) "yaml" <;> cases h2 : endswith (lower url) "yml" <;>
      cases h3 : endswith (lower url) "xml" <;> cases h4 : endswith (lower url) "json" <;>
      simp [infer_type, h1, h2, h3, h4]
  · cases h1 : endswith (lower url) "yaml" <;> cases h2 : endswith (lower url) "yml" <;>
      cases h3 : endswith (lower url) "xml" <;> cases h4 : endswith (lower url) "json" <;>
      simp [infer_type, h1, h2, h3, h4, Except.isOk, Except.toBool]
  · simp [sync_templates]

/-- C3: in Single mode, each proxy's document below `VERSION_SUPPORTING_PAGES`
(5.4.0) has no `pages` key at all and carries the page's widget list at top
level, while at or above the threshold its `pages` list wraps exactly the one
page for that proxy and there is no top-level `widgets` key. -/
theorem C3_single_mode_layout (v : Version) (owner : String) (proxies : List Proxy) :
    (generate_dashboards CretaionMode.SINGLE v owner proxies).map
        (fun d => (d.pages, d.widgets)) =
      proxies.map (fun p =>
        if Version.ge v VERSION_SUPPORTING_PAGES then
          (some [generate_dashboard_page p], none)
        else
          (none, some (generate_dashboard_page p).widgets)) := by
  simp only [generate_dashboards, List.map_map]
  apply List.map_congr_left
  intro p _
  simp only [Function.comp_apply, single_dashboard, generate_dashboard]
  cases h : Version.ge v VERSION_SUPPORTING_PAGES <;> simp [h]

/-- C7: every document produced by the generation pipeline, in every mode and
at every server version, carries at most one of the top-level keys `pages`
and `widgets`, never both; the `generate_dashboard` shell itself also never
has both. -/
theorem C7_no_mixed_pages_widgets (mode : CretaionMode) (v : Version)
    (owner : String) (proxies : List Proxy) (dashboard_name owner_id : String) :
    ((generate_dashboards mode v owner proxies).all
      fun d => !(d.pages.isSome && d.widgets.isSome)) = true ∧
    ((generate_dashboard dashboard_name owner_id).pages.isSome &&
      (generate_dashboard dashboard_name owner_id).widgets.isSome) = false := by
  constructor
  · cases mode
    · simp [generate_dashboards, generate_dashboard]
    · simp only [generate_dashboards, List.all_eq_true]
      intro d hd
      simp only [List.mem_map] at hd
      obtain ⟨p, _, rfl⟩ := hd
      cases h : Version.ge v VERSION_SUPPORTING_PAGES <;>
        simp [single_dashboard, generate_dashboard, h]
  · rfl

/-- C9: for the target group with proxies `{id 1, name "proxy-a"}` and
`{id 2, name "proxy-b"}`, Paged mode at server version 6.0 passes the
capability gate and generates exactly one document with the fixed title
"Zabbix proxies health", whose pages are the two proxies' pages named
"proxy-a" and "proxy-b" in input order, each containing exactly 6 widgets. -/
theorem C9_end_to_end_paged_generation (owner : String) :
    generate_dashboards CretaionMode.PAGED ⟨6, 0, 0⟩ owner
        [⟨"proxy-a", "1"⟩, ⟨"proxy-b", "2"⟩] =
      [{ name := "Zabbix proxies health", userid := owner, «private» := "1",
         display_period := "30", auto_start := "1",
         pages := some [generate_dashboard_page ⟨"proxy-a", "1"⟩,
                        generate_dashboard_page ⟨"proxy-b", "2"⟩],
         widgets := none }] ∧
    (generate_dashboard_page ⟨"proxy-a", "1"⟩).name = "proxy-a" ∧
    (generate_dashboard_page ⟨"proxy-a", "1"⟩).widgets.length = 6 ∧
    (generate_dashboard_page ⟨"proxy-b", "2"⟩).name = "proxy-b" ∧
    (generate_dashboard_page ⟨"proxy-b", "2"⟩).widgets.length = 6 ∧
    select_creation_mode CretaionMode.PAGED ⟨6, 0, 0⟩ = Except.ok CretaionMode.PAGED := by
  refine ⟨rfl, rfl, rfl, rfl, rfl, rfl⟩

/-- C4: the paged-dashboard gate is boundary-exact — selecting Paged mode
succeeds exactly for server versions lexicographically at or above 5.4.0
(5.4.0 itself passes), and strictly below it the whole run fails with the
unsupported-version error before any document is built or any remote call is
made (the result is exit code 1 with no reconciliation outcomes). -/
theorem C4_paged_capability_gate (v : Version) (groups : List HostGroup)
    (owner : String) (force : Bool) (remote : Remote)
    (hlow : Version.lt v VERSION_SUPPORTING_PAGES = true) :
    run CretaionMode.PAGED v groups owner force remote =
        RunResult.exit1 "This version doesn't support paged dashboards!" ∧
    (∀ w : Version, (select_creation_mode CretaionMode.PAGED w).isOk = true ↔
      (5 < w.major ∨ (w.major = 5 ∧ 4 < w.minor) ∨ (w.major = 5 ∧ w.minor = 4))) ∧
    select_creation_mode CretaionMode.PAGED ⟨5, 4, 0⟩ = Except.ok CretaionMode.PAGED := by
  refine ⟨?_, ?_, rfl⟩
  · simp [run, select_creation_mode, hlow]
  · intro w
    have hw := Version_lt_iff w VERSION_SUPPORTING_PAGES
    cases h : Version.lt w VERSION_SUPPORTING_PAGES
    · rw [h] at hw
      simp only [VERSION_SUPPORTING_PAGES] at hw
      simp at hw
      simp [select_creation_mode, h, Except.isOk, Except.toBool]
      omega
    · rw [h] at hw
      simp only [VERSION_SUPPORTING_PAGES] at hw
      simp at hw
      simp [select_creation_mode, h, Except.isOk, Except.toBool]
      omega

/-- C4 witness: at version 5.3.9 a Paged-mode run is rejected up front. -/
theorem C4_paged_capability_gate_witness :
    run CretaionMode.PAGED ⟨5, 3, 9⟩ [] "u" false trivialRemote =
      RunResult.exit1 "This version doesn't support paged dashboards!" :=
  (C4_paged_capability_gate ⟨5, 3, 9⟩ [] "u" false trivialRemote (by decide)).1

/-- C5: in a batch of three documents where only the second one's create call
reports an error and `force` is false, the outcomes in batch order are
Created, Skipped (with that error's data recorded), Created: the third
document is still attempted and the loop finishes without aborting. -/
theorem C5_conflict_skip_continues (d1 d2 d3 : Dashboard) (remote : Remote)
    (v : Version) (e : ApiErr)
    (h1 : remote.createError d1.name = none)
    (h2 : remote.createError d2.name = some e)
    (h3 : remote.createError d3.name = none) :
    reconcile [d1, d2, d3] false v remote =
      ⟨[Outcome.Created, Outcome.Skipped e.data, Outcome.Created], none,
       [RemoteCall.createCall d1, RemoteCall.createCall d2, RemoteCall.createCall d3]⟩ := by
  simp [reconcile, process_dashboard, h1, h2, h3]

/-- C5 witness: concrete three-document batch with a conflict on "B". -/
theorem C5_conflict_skip_continues_witness :
    reconcile [generate_dashboard "A" "u", generate_dashboard "B" "u",
               generate_dashboard "C" "u"] false ⟨5, 4, 0⟩ conflictOnB =
      ⟨[Outcome.Created, Outcome.Skipped "Dashboard B already exists.", Outcome.Created],
       none,
       [RemoteCall.createCall (generate_dashboard "A" "u"),
        RemoteCall.createCall (generate_dashboard "B" "u"),
        RemoteCall.createCall (generate_dashboard "C" "u")]⟩ := by
  exact C5_conflict_skip_continues (generate_dashboard "A" "u")
    (generate_dashboard "B" "u") (generate_dashboard "C" "u") conflictOnB ⟨5, 4, 0⟩
    ⟨"Dashboard B already exists."⟩ (by decide) (by decide) (by decide)

/-- C6: when `force` is true and a document's create call reports an error
and the lookup-by-name finds the existing document, the update call that is
sent carries exactly the dashboard id plus only the `pages` field (at or
above `VERSION_SUPPORTING_PAGES`) or only the `widgets` field (below it):
none of the other document attributes (name, owner, visibility, auto-start,
display period) appear among its keyword arguments. -/
theorem C6_forced_update_only_layout_field (v : Version) (d : Dashboard)
    (remote : Remote) (e : ApiErr) (d_id : String) (ids : List String)
    (fields : List (String × FieldValue))
    (hc : remote.createError d.name = some e)
    (hg : remote.getByName d.name = d_id :: ids)
    (hf : update_call_fields v d d_id = some fields) :
    (process_dashboard remote true v d).2 =
      [RemoteCall.createCall d, RemoteCall.getCall d.name, RemoteCall.updateCall fields] ∧
    fields.map Prod.fst =
      ["dashboardid", if Version.ge v VERSION_SUPPORTING_PAGES then "pages" else "widgets"] ∧
    "name" ∉ fields.map Prod.fst ∧ "userid" ∉ fields.map Prod.fst ∧
    "private" ∉ fields.map Prod.fst ∧ "display_period" ∉ fields.map Prod.fst ∧
    "auto_start" ∉ fields.map Prod.fst := by
  have hcalls : (process_dashboard remote true v d).2 =
      [RemoteCall.createCall d, RemoteCall.getCall d.name, RemoteCall.updateCall fields] := by
    rcases hu : remote.updateError fields with _ | e2 <;>
      simp [process_dashboard, hc, hg, hf, hu]
  have hnames : fields.map Prod.fst =
      ["dashboardid", if Version.ge v VERSION_SUPPORTING_PAGES then "pages" else "widgets"] := by
    unfold update_call_fields at hf
    cases h : Version.ge v VERSION_SUPPORTING_PAGES <;> simp [h] at hf ⊢
    · rcases hw : d.widgets with _ | ws <;> rw [hw] at hf <;> simp at hf
      rw [← hf]
      simp
    · rcases hp : d.pages with _ | ps <;> rw [hp] at hf <;> simp at hf
      rw [← hf]
      simp
  refine ⟨hcalls, hnames, ?_, ?_, ?_, ?_, ?_⟩ <;> rw [hnames] <;>
    cases h : Version.ge v VERSION_SUPPORTING_PAGES <;> simp [h]

/-- C6 witness: conflict on document "A", existing id "42", version 6.0.0. -/
theorem C6_forced_update_only_layout_field_witness :
    (process_dashboard conflictOnAFound true ⟨6, 0, 0⟩ (generate_dashboard "A" "u")).2 =
      [RemoteCall.createCall (generate_dashboard "A" "u"),
       RemoteCall.getCall (generate_dashboard "A" "u").name,
       RemoteCall.updateCall
         [("dashboardid", FieldValue.str "42"), ("pages", FieldValue.pagesVal [])]] ∧
    [("dashboardid", FieldValue.str "42"),
     ("pages", FieldValue.pagesVal ([] : List DashboardPage))].map Prod.fst =
      ["dashboardid",
       if Version.ge ⟨6, 0, 0⟩ VERSION_SUPPORTING_PAGES then "pages" else "widgets"] ∧
    "name" ∉ [("dashboardid", FieldValue.str "42"),
      ("pages", FieldValue.pagesVal ([] : List DashboardPage))].map Prod.fst ∧
    "userid" ∉ [("dashboardid", FieldValue.str "42"),
      ("pages", FieldValue.pagesVal ([] : List DashboardPage))].map Prod.fst ∧
    "private" ∉ [("dashboardid", FieldValue.str "42"),
      ("pages", FieldValue.pagesVal ([] : List DashboardPage))].map Prod.fst ∧
    "display_period" ∉ [("dashboardid", FieldValue.str "42"),
      ("pages", FieldValue.pagesVal ([] : List DashboardPage))].map Prod.fst ∧
    "auto_start" ∉ [("dashboardid", FieldValue.str "42"),
      ("pages", FieldValue.pagesVal ([] : List DashboardPage))].map Prod.fst := by
  exact C6_forced_update_only_layout_field ⟨6, 0, 0⟩ (generate_dashboard "A" "u")
    conflictOnAFound ⟨"Dashboard A already exists."⟩ "42" []
    [("dashboardid", FieldValue.str "42"), ("pages", FieldValue.pagesVal [])]
    (by decide) (by decide) (by decide)

/-- C1 counterexample: with `force=true`, document "A"'s create call fails
with a non-conflict error ("Internal error") and the lookup-by-name finds no
existing document. The claim requires a Failed outcome for "A" and for the
loop to continue with document "B"; instead the `IndexError` from indexing
the empty lookup result escapes the per-document boundary, the loop aborts
with no outcome recorded, and no create call is ever issued for "B". -/
theorem C1_counterexample :
    reconcile [generate_dashboard "A" "u", generate_dashboard "B" "u"] true ⟨5, 4, 0⟩
        internalErrorOnA =
      ⟨[], some LoopError.indexError,
       [RemoteCall.createCall (generate_dashboard "A" "u"), RemoteCall.getCall "A"]⟩ := by
  decide

/-- C1 amended: with `force=true`, any create failure (conflict or not) sends
the loop down the forced-update path; when the lookup-by-name then finds no
existing document, the resulting `IndexError` escapes the per-document
boundary — no outcome is recorded for that document and none of the later
documents in the batch is attempted. -/
theorem C1_amended_forced_update_aborts (d : Dashboard) (rest : List Dashboard)
    (remote : Remote) (v : Version) (e : ApiErr)
    (h1 : remote.createError d.name = some e)
    (h2 : remote.getByName d.name = []) :
    reconcile (d :: rest) true v remote =
      ⟨[], some LoopError.indexError,
       [RemoteCall.createCall d, RemoteCall.getCall d.name]⟩ := by
  simp [reconcile, process_dashboard, h1, h2]

/-- C1 witness: the amended behavior on a concrete one-document batch. -/
theorem C1_amended_forced_update_aborts_witness :
    reconcile [generate_dashboard "A" "u"] true ⟨6, 0, 0⟩ internalErrorOnA =
      ⟨[], some LoopError.indexError,
       [RemoteCall.createCall (generate_dashboard "A" "u"),
        RemoteCall.getCall (generate_dashboard "A" "u").name]⟩ := by
  exact C1_amended_forced_update_aborts (generate_dashboard "A" "u") [] internalErrorOnA
    ⟨6, 0, 0⟩ ⟨"Internal error"⟩ (by decide) (by decide)

/-- C10: when the host group exists but holds zero proxies, the run does not
fail: the empty-group warning is logged and, in Paged mode, exactly one
document with an empty `pages` list is generated and submitted to the create
call (here recorded as Created). -/
theorem C10_empty_group_warns_and_creates (v : Version) (owner : String)
    (g : HostGroup) (force : Bool) (remote : Remote)
    (hv : Version.lt v VERSION_SUPPORTING_PAGES = false)
    (hg : g.hosts = [])
    (hc : remote.createError "Zabbix proxies health" = none) :
    run CretaionMode.PAGED v [g] owner force remote =
      RunResult.finished true
        ⟨[Outcome.Created], none,
         [RemoteCall.createCall
           { name := "Zabbix proxies health", userid := owner, «private» := "1",
             display_period := "30", auto_start := "1",
             pages := some [], widgets := none }]⟩ := by
  simp [run, select_creation_mode, hv, get_proxies, hg, generate_dashboards,
    generate_dashboard, reconcile, process_dashboard, hc]

/-- C10 witness: an existing, empty group at version 6.0.0. -/
theorem C10_empty_group_warns_and_creates_witness :
    run CretaionMode.PAGED ⟨6, 0, 0⟩ [⟨"Proxy group", []⟩] "u" false trivialRemote =
      RunResult.finished true
        ⟨[Outcome.Created], none,
         [RemoteCall.createCall
           { name := "Zabbix proxies health", userid := "u", «private» := "1",
             display_period := "30", auto_start := "1",
             pages := some [], widgets := none }]⟩ := by
  exact C10_empty_group_warns_and_creates ⟨6, 0, 0⟩ "u" ⟨"Proxy group", []⟩ false
    trivialRemote (by decide) rfl rfl
